import Mathlib

/-!
# Verification of the Solflare portfolio reconciliation core

Shallow embedding of the portfolio reconciliation logic of the
`solflare-tests-wdio` repository: the `PortfolioValidator` helper
(`sum`, `tokenValue`, `assertMatch`), the `SolflareApiClient` service object
(`getPortfolio`, `getBalances`, `getMultiplePortfolios`) and the standalone
helpers `calculateTokenTotal` and `calculateWalletSum` of the API test suite.

Monetary quantities are modelled as rationals (`ℚ`): the JavaScript source
computes with IEEE doubles, but every property under scrutiny is about the
exact arithmetic the code spells out (sums, products, absolute differences,
a strict tolerance comparison), so `ℚ` is the faithful idealisation; `ℚ` has
no `NaN` and every modelled function is total, which is how "never throws,
never returns `NaN`" is rendered here.

Optional / nullable JSON fields are modelled as `Option ℚ`; the JavaScript
coercion `x || 0` on a missing or null field is `Option.getD 0`. HTTP
transport is a parameter: a function from the request the client builds to
either a failure or a parsed response body, so the client code itself is the
only thing fixed by the embedding.
-/

/-- One token position inside a portfolio response: the `price` object of a
token, carrying an optional `usdPrice` field (`token.price?.usdPrice`). -/
structure TokenPrice where
  usdPrice : Option ℚ
deriving Repr, DecidableEq

/-- One element of the `tokens` array of a portfolio response. Both the held
quantity and the whole `price` object may be absent or null. -/
structure TokenHolding where
  totalUiAmount : Option ℚ
  price : Option TokenPrice
deriving Repr, DecidableEq

/-- A server-reported aggregate, accessed as `.total` in the source
(`value.total`, `tokensValue.total`, `stocksValue.total`). -/
structure TotalField where
  total : ℚ
deriving Repr, DecidableEq

/-- Parsed body of `GET /v3/portfolio/tokens/{address}` as destructured by the
test suite: `const { tokens, value, tokensValue, stocksValue } = response.data`. -/
structure WalletPortfolio where
  tokens : List TokenHolding
  value : TotalField
  tokensValue : TotalField
  stocksValue : TotalField
deriving Repr, DecidableEq

/-- One element of the `data` array of the balances response; its `value`
field may be absent (the source reads `wallet.value || 0`). -/
structure WalletValueEntry where
  value : Option ℚ
deriving Repr, DecidableEq

/-- Parsed body of `POST /v2/portfolio/balances` as destructured by the test
suite: `const { netWorth, data } = response3.data`; the `data` array itself
may be absent (the source guards with `data || []`). -/
structure AggregateBalances where
  netWorth : ℚ
  data : Option (List WalletValueEntry)
deriving Repr, DecidableEq

/-- Failure values a call can surface. `assertionLessThan a e` is the chai
`AssertionError` raised by `expect(a).to.be.lessThan(e)` — it carries exactly
the two values handed to chai. `transportError` and `requestRejected` are the
network-level and non-2xx failures of the HTTP layer. -/
inductive TestFailure where
  | assertionLessThan (actual expected : ℚ)
  | transportError (message : String)
  | requestRejected (status : Nat) (message : String)
deriving Repr, DecidableEq

/-- True exactly on the tolerance-comparison failure raised by `assertMatch`. -/
def TestFailure.isToleranceFailure : TestFailure → Bool
  | .assertionLessThan _ _ => true
  | _ => false

/-- True exactly on network-level transport failures. -/
def TestFailure.isTransport : TestFailure → Bool
  | .transportError _ => true
  | _ => false

/-- True exactly on non-2xx endpoint rejections. -/
def TestFailure.isRejected : TestFailure → Bool
  | .requestRejected _ _ => true
  | _ => false

/-- One record emitted to the diagnostics sink (the winston logger wrapper).
The records are structured here rather than pre-formatted strings; what
matters for the properties below is which data reaches the sink. -/
inductive LogEntry where
  | compared (label : String) (actual expected : ℚ)
  | difference (diff : ℚ)
  | verified (tolerance : ℚ)
deriving Repr, DecidableEq

/-- Source: `class PortfolioValidator { constructor(tolerance = 0.01) }` — the single
configuration value fixed at construction. -/
structure PortfolioValidator where
  tolerance : ℚ
deriving Repr, DecidableEq

namespace PortfolioValidator

/-- Source: `static sum(items, getValue) { return items.reduce((total, item) => total
+ getValue(item), 0); }` — a left fold from 0. -/
def sum {α : Type} (items : List α) (getValue : α → ℚ) : ℚ :=
  items.foldl (fun total item => total + getValue item) 0

/-- Source: `static tokenValue(tokens) { return this.sum(tokens, t =>
(t.totalUiAmount || 0) * (t.price?.usdPrice || 0)); }` -/
def tokenValue (tokens : List TokenHolding) : ℚ :=
  sum tokens (fun t => (t.totalUiAmount.getD 0) * ((t.price.bind TokenPrice.usdPrice).getD 0))

/-- Source: `assertMatch(actual, expected, label)`: computes `diff = Math.abs(actual -
expected)`, logs the comparison and the difference, then runs
`expect(diff).to.be.lessThan(this.tolerance)`. On pass it logs a verification
record and returns `this`; on failure the chai assertion throws, so the
verification record is not emitted. The first component is the control-flow
outcome, the second the records handed to the diagnostics sink. -/
def assertMatch (v : PortfolioValidator) (actual expected : ℚ) (label : String) :
    Except TestFailure PortfolioValidator × List LogEntry :=
  let diff := |actual - expected|
  let pre : List LogEntry := [.compared label actual expected, .difference diff]
  if diff < v.tolerance then
    (.ok v, pre ++ [.verified v.tolerance])
  else
    (.error (.assertionLessThan diff v.tolerance), pre)

end PortfolioValidator

/-- Source: `calculateTokenTotal(tokens)` of `portfolioApi.spec.js`: a `for` loop
accumulating `(token.totalUiAmount || 0) * (token.price?.usdPrice || 0)`. -/
def calculateTokenTotal (tokens : List TokenHolding) : ℚ :=
  tokens.foldl
    (fun total token =>
      total + (token.totalUiAmount.getD 0) * ((token.price.bind TokenPrice.usdPrice).getD 0))
    0

/-- Source: `calculateWalletSum(data)` of `portfolioApi.spec.js`: a `for` loop over
`data || []` accumulating `wallet.value || 0`. -/
def calculateWalletSum (data : Option (List WalletValueEntry)) : ℚ :=
  (data.getD []).foldl (fun sum wallet => sum + wallet.value.getD 0) 0

/-- The GET request `getPortfolio` hands to axios: URL, query parameters and
headers. -/
structure PortfolioRequest where
  method : String
  url : String
  params : List (String × String)
  headers : List (String × String)
deriving Repr, DecidableEq

/-- The JSON body `getBalances` posts:
`{ pubkeys, currency, general, network }`. -/
structure BalancesBody where
  pubkeys : List String
  currency : String
  general : Bool
  network : String
deriving Repr, DecidableEq

/-- The POST request `getBalances` hands to axios. -/
structure BalancesRequest where
  method : String
  url : String
  headers : List (String × String)
  body : BalancesBody
deriving Repr, DecidableEq

/-- The HTTP layer for portfolio requests: axios performing the request and
the `.data` destructuring of the response. A parameter of the model — the
client is transport-agnostic. -/
def PortfolioTransport : Type :=
  PortfolioRequest → Except TestFailure WalletPortfolio

/-- The HTTP layer for balances requests, analogous to `PortfolioTransport`. -/
def BalancesTransport : Type :=
  BalancesRequest → Except TestFailure AggregateBalances

/-- Source: `class SolflareApiClient { constructor(baseUrl = "...") { this.baseUrl =
baseUrl; this.authToken = crypto.randomUUID(); } }` -/
structure SolflareApiClient where
  baseUrl : String
  authToken : String
deriving Repr, DecidableEq

namespace SolflareApiClient

/-- Source: `get headers() { return { "Authorization": `Bearer ...` }; }` -/
def reqHeaders (c : SolflareApiClient) : List (String × String) :=
  [("Authorization", "Bearer " ++ c.authToken)]

/-- The request built by `getPortfolio(address)`:
`axios.get(baseUrl + "/v3/portfolio/tokens/" + address, { headers, params:
{ network: "mainnet" } })`. -/
def portfolioRequest (c : SolflareApiClient) (address : String) : PortfolioRequest :=
  { method := "GET"
    url := c.baseUrl ++ "/v3/portfolio/tokens/" ++ address
    params := [("network", "mainnet")]
    headers := c.reqHeaders }

/-- Source: `async getPortfolio(address)`: performs the GET and returns the parsed
body. The declared parameter list is `(address)` only. -/
def getPortfolio (c : SolflareApiClient) (t : PortfolioTransport) (address : String) :
    Except TestFailure WalletPortfolio :=
  t (c.portfolioRequest address)

/-- The call expression `api.getPortfolio(address, network)` as written in
`solflare.portfolio.spec.js` (`api.getPortfolio(address, "mainnet")`):
`getPortfolio` declares only `address`, so JavaScript discards the second
argument and the call is `getPortfolio(address)`. -/
def getPortfolioCalledWithNetwork (c : SolflareApiClient) (t : PortfolioTransport)
    (address network : String) : Except TestFailure WalletPortfolio :=
  c.getPortfolio t address

/-- The request built by `getBalances(addresses)`:
`axios.post(baseUrl + "/v2/portfolio/balances", { pubkeys:
addresses.map(addr => "1" + addr), currency: "usd", general: true, network:
"mainnet" }, { headers })`. -/
def balancesRequest (c : SolflareApiClient) (addresses : List String) : BalancesRequest :=
  { method := "POST"
    url := c.baseUrl ++ "/v2/portfolio/balances"
    headers := c.reqHeaders
    body :=
      { pubkeys := addresses.map (fun addr => "1" ++ addr)
        currency := "usd"
        general := true
        network := "mainnet" } }

/-- Source: `async getBalances(addresses)`: performs the POST and returns the parsed
body. There is no local validation of `addresses` — the outcome is exactly
exactly the outcome of the transport on the built request. -/
def getBalances (c : SolflareApiClient) (t : BalancesTransport) (addresses : List String) :
    Except TestFailure AggregateBalances :=
  t (c.balancesRequest addresses)

end SolflareApiClient

/-- Source: `Promise.all` over already-started independent requests, observed at the
level of settled outcomes: succeeds with the list of results in input order
when every entry succeeds, otherwise fails with the error of a failed entry
(the first in input order here, matching the wait-for-all-then-report-first
reading the specification allows). -/
def promiseAll {ε α : Type} : List (Except ε α) → Except ε (List α)
  | [] => .ok []
  | .error e :: _ => .error e
  | .ok a :: xs =>
    match promiseAll xs with
    | .error e => .error e
    | .ok as => .ok (a :: as)

/-- Source: `async getMultiplePortfolios(addresses) { return await
Promise.all(addresses.map(addr => this.getPortfolio(addr))); }` -/
def SolflareApiClient.getMultiplePortfolios (c : SolflareApiClient) (t : PortfolioTransport)
    (addresses : List String) : Except TestFailure (List WalletPortfolio) :=
  promiseAll (addresses.map (fun addr => c.getPortfolio t addr))

section Lemmas

/-- The `reduce`/`for`-loop accumulation pattern, from any start value. -/
theorem foldl_add_eq (f : α → ℚ) (l : List α) (init : ℚ) :
    l.foldl (fun total item => total + f item) init = init + (l.map f).sum := by
  induction l generalizing init with
  | nil => simp
  | cons x xs ih => simp [List.foldl_cons, ih, add_assoc]

theorem promiseAll_ok {ε α : Type} {xs : List (Except ε α)} {ys : List α}
    (h : promiseAll xs = .ok ys) :
    ys.length = xs.length ∧
      ∀ (i : Nat) (x : Except ε α) (y : α),
        xs[i]? = some x → ys[i]? = some y → x = .ok y := by
  induction xs generalizing ys with
  | nil =>
    simp only [promiseAll] at h
    cases h
    exact ⟨rfl, by intro i x y hx; simp at hx⟩
  | cons x xs ih =>
    cases x with
    | error e => simp [promiseAll] at h
    | ok a =>
      simp only [promiseAll] at h
      cases hrec : promiseAll xs with
      | error e => rw [hrec] at h; cases h
      | ok as =>
        rw [hrec] at h
        cases h
        obtain ⟨hlen, hidx⟩ := ih hrec
        refine ⟨by simp [hlen], ?_⟩
        intro i u v hu hv
        cases i with
        | zero => simp at hu hv; rw [← hu, ← hv]
        | succ n => simp at hu hv; exact hidx n u v hu hv

theorem promiseAll_error {ε α : Type} {xs : List (Except ε α)}
    (h : ∃ x ∈ xs, x.isOk = false) :
    ∃ e, promiseAll xs = .error e ∧ .error e ∈ xs := by
  induction xs with
  | nil => obtain ⟨x, hx, _⟩ := h; simp at hx
  | cons x xs ih =>
    cases x with
    | error e => exact ⟨e, by simp [promiseAll], by simp⟩
    | ok a =>
      obtain ⟨y, hy, hyf⟩ := h
      rcases List.mem_cons.mp hy with rfl | hmem
      · simp [Except.isOk, Except.toBool] at hyf
      · obtain ⟨e, he, hemem⟩ := ih ⟨y, hmem, hyf⟩
        exact ⟨e, by simp [promiseAll, he], List.mem_cons_of_mem _ hemem⟩

end Lemmas

theorem assertMatch_outcome (v : PortfolioValidator) (a e : ℚ) (l : String) :
    (v.assertMatch a e l).1 =
      if |a - e| < v.tolerance then .ok v
      else .error (.assertionLessThan |a - e| v.tolerance) := by
  unfold PortfolioValidator.assertMatch
  dsimp only []
  split <;> rfl

theorem assertMatch_isOk (v : PortfolioValidator) (a e : ℚ) (l : String) :
    (v.assertMatch a e l).1.isOk = true ↔ |a - e| < v.tolerance := by
  rw [assertMatch_outcome]
  by_cases h : |a - e| < v.tolerance
  · simp [h, Except.isOk, Except.toBool]
  · simp [h, Except.isOk, Except.toBool]

/-- C1: `PortfolioValidator.tokenValue` (and the loop-based `calculateTokenTotal`
of the API spec) returns the sum over the token sequence of held quantity ×
unit USD price, a missing or null quantity or price contributing 0; on the
two-token input with quantities 10 and 4 and unit prices 5/2 and 0 it returns
exactly 25. -/
theorem spec_C1 (tokens : List TokenHolding) :
    PortfolioValidator.tokenValue tokens =
      (tokens.map (fun t =>
        t.totalUiAmount.getD 0 * (t.price.bind TokenPrice.usdPrice).getD 0)).sum ∧
    calculateTokenTotal tokens = PortfolioValidator.tokenValue tokens ∧
    PortfolioValidator.tokenValue
      [{ totalUiAmount := some 10, price := some { usdPrice := some (5 / 2) } },
       { totalUiAmount := some 4, price := some { usdPrice := some 0 } }] = 25 := by
  refine ⟨?_, rfl, ?_⟩
  · simpa [PortfolioValidator.tokenValue, PortfolioValidator.sum] using
      foldl_add_eq
        (fun t : TokenHolding =>
          t.totalUiAmount.getD 0 * (t.price.bind TokenPrice.usdPrice).getD 0)
        tokens 0
  · simp [PortfolioValidator.tokenValue, PortfolioValidator.sum, List.foldl]
    norm_num

/-- C5: the reductions treat a missing or null numeric field as 0 and, being
total functions into `ℚ`, can neither throw nor produce `NaN`:
`calculateWalletSum` equals the sum of `value.getD 0` over `data.getD []`,
agrees with `PortfolioValidator.sum` under the selector the suite uses, and
prepending an entry whose numeric fields are all absent changes neither
`tokenValue` nor `calculateWalletSum`. -/
theorem spec_C5 (data : Option (List WalletValueEntry)) (tokens : List TokenHolding) :
    calculateWalletSum data = ((data.getD []).map (fun w => w.value.getD 0)).sum ∧
    PortfolioValidator.sum (data.getD []) (fun w => w.value.getD 0) = calculateWalletSum data ∧
    PortfolioValidator.tokenValue ({ totalUiAmount := none, price := none } :: tokens) =
      PortfolioValidator.tokenValue tokens ∧
    PortfolioValidator.tokenValue
        ({ totalUiAmount := none, price := some { usdPrice := none } } :: tokens) =
      PortfolioValidator.tokenValue tokens ∧
    calculateWalletSum (some ({ value := none } :: data.getD [])) = calculateWalletSum data := by
  refine ⟨?_, rfl, ?_, ?_, ?_⟩
  · simpa [calculateWalletSum] using
      foldl_add_eq (fun w : WalletValueEntry => w.value.getD 0) (data.getD []) 0
  · simp [PortfolioValidator.tokenValue, PortfolioValidator.sum, List.foldl_cons]
  · simp [PortfolioValidator.tokenValue, PortfolioValidator.sum, List.foldl_cons]
  · simp [calculateWalletSum, List.foldl_cons]

/-- C10: `PortfolioValidator.sum` on the empty sequence is exactly 0 for every
selector (0 is the identity of the reduction), and `calculateWalletSum`
returns 0 when its `data` argument is absent or null. -/
theorem spec_C10 :
    (∀ (α : Type) (getValue : α → ℚ), PortfolioValidator.sum [] getValue = 0) ∧
    calculateWalletSum none = 0 :=
  ⟨fun _ _ => rfl, rfl⟩

/-- C2: `assertMatch(actual, expected, label)` returns normally exactly when
the absolute difference is strictly below the constructed tolerance; at the
boundary, `assertMatch x (x + tolerance) _` fails while
`assertMatch x (x + tolerance - ε) _` passes for every ε with 0 < ε ≤ tolerance. -/
theorem spec_C2 (v : PortfolioValidator) (a e : ℚ) (l : String) :
    ((v.assertMatch a e l).1.isOk = true ↔ |a - e| < v.tolerance) ∧
    (v.assertMatch a (a + v.tolerance) l).1.isOk = false ∧
    ∀ ε : ℚ, 0 < ε → ε ≤ v.tolerance →
      (v.assertMatch a (a + v.tolerance - ε) l).1.isOk = true := by
  refine ⟨assertMatch_isOk v a e l, ?_, ?_⟩
  · have hne : ¬ |a - (a + v.tolerance)| < v.tolerance := by
      have habs : a - (a + v.tolerance) = -v.tolerance := by ring
      rw [habs, abs_neg]
      exact not_lt.mpr (le_abs_self _)
    cases hb : (v.assertMatch a (a + v.tolerance) l).1.isOk
    · rfl
    · exact absurd ((assertMatch_isOk v a (a + v.tolerance) l).mp hb) hne
  · intro ε hpos hle
    apply (assertMatch_isOk v a (a + v.tolerance - ε) l).mpr
    have habs : a - (a + v.tolerance - ε) = ε - v.tolerance := by ring
    rw [habs, abs_sub_comm, abs_of_nonneg (by linarith)]
    linarith

/-- Witness for C2 at tolerance 1/100, actual 0, expected 0, ε = 1/200. -/
theorem spec_C2_witness :
    ((0 : ℚ) < 1 / 200) ∧
    ((1 : ℚ) / 200 ≤ ({ tolerance := 1 / 100 } : PortfolioValidator).tolerance) ∧
    (({ tolerance := 1 / 100 } : PortfolioValidator).assertMatch 0
        (0 + ({ tolerance := 1 / 100 } : PortfolioValidator).tolerance - 1 / 200)
        "Net Worth").1.isOk = true :=
  ⟨by norm_num, by norm_num,
    (spec_C2 { tolerance := 1 / 100 } 0 0 "Net Worth").2.2 (1 / 200) (by norm_num) (by norm_num)⟩

/-- C9: the pass/fail outcome and returned value of `assertMatch` do not
depend on the label, and — since the records handed to the diagnostics sink
are the second component, computed after the outcome is fixed — no behaviour
of the sink can affect the first component: two calls differing only in the
label have identical outcomes. -/
theorem spec_C9 (v : PortfolioValidator) (a e : ℚ) (la lb : String) :
    (v.assertMatch a e la).1 = (v.assertMatch a e lb).1 := by
  rw [assertMatch_outcome v a e la, assertMatch_outcome v a e lb]

/-- C8 counterexample: the failure value raised by `assertMatch` does not
carry the label nor the two compared values. The failure raised with label
"labelA" is literally equal to the one raised with label "labelB", and the
failure for the pair (0, 1) is literally equal to the one for the distinct
pair (100, 101): a value equal across differing labels and differing
compared pairs cannot carry either, refuting the claim that the failure
carries the label and both compared values. -/
theorem spec_C8_counterexample :
    (({ tolerance := 1 / 100 } : PortfolioValidator).assertMatch 0 1 "labelA").1 =
      (({ tolerance := 1 / 100 } : PortfolioValidator).assertMatch 0 1 "labelB").1 ∧
    (({ tolerance := 1 / 100 } : PortfolioValidator).assertMatch 0 1 "labelA").1 =
      (({ tolerance := 1 / 100 } : PortfolioValidator).assertMatch 100 101 "labelA").1 ∧
    (({ tolerance := 1 / 100 } : PortfolioValidator).assertMatch 0 1 "labelA").1 =
      .error (.assertionLessThan 1 (1 / 100)) := by
  refine ⟨?_, ?_, ?_⟩
  · rw [assertMatch_outcome, assertMatch_outcome]
  · rw [assertMatch_outcome, assertMatch_outcome]
    norm_num
  · rw [assertMatch_outcome]
    norm_num

/-- C8 (amended): whenever `assertMatch` fails, the raised failure is the
chai assertion failure carrying the computed difference and the configured
tolerance — the arguments of `expect(diff).to.be.lessThan(tolerance)` — and
it is distinct from the `TransportError` and `RequestRejected` failures; the
label and the individual compared values are only emitted to the diagnostics
log, not carried in the failure. -/
theorem spec_C8 (v : PortfolioValidator) (a e : ℚ) (l : String) (f : TestFailure)
    (h : (v.assertMatch a e l).1 = .error f) :
    f = .assertionLessThan |a - e| v.tolerance ∧
    f.isToleranceFailure = true ∧ f.isTransport = false ∧ f.isRejected = false := by
  rw [assertMatch_outcome] at h
  by_cases hc : |a - e| < v.tolerance
  · rw [if_pos hc] at h
    exact absurd h (by simp)
  · rw [if_neg hc] at h
    injection h with h2
    rw [← h2]
    exact ⟨rfl, rfl, rfl, rfl⟩

/-- Witness for C8 at tolerance 1/100, actual 0, expected 1. -/
theorem spec_C8_witness :
    TestFailure.assertionLessThan 1 (1 / 100) =
      .assertionLessThan |(0 : ℚ) - 1| ({ tolerance := 1 / 100 } : PortfolioValidator).tolerance ∧
    (TestFailure.assertionLessThan 1 (1 / 100)).isToleranceFailure = true ∧
    (TestFailure.assertionLessThan 1 (1 / 100)).isTransport = false ∧
    (TestFailure.assertionLessThan 1 (1 / 100)).isRejected = false :=
  spec_C8 { tolerance := 1 / 100 } 0 1 "Calculated Total"
    (.assertionLessThan 1 (1 / 100)) (by rw [assertMatch_outcome]; norm_num)

/-- A concrete client instance, as built by `new SolflareApiClient()` with a
fixed generated token, used by witnesses and counterexamples. -/
def demoClient : SolflareApiClient :=
  { baseUrl := "https://wallet-api.solflare.com"
    authToken := "00000000-0000-4000-8000-000000000000" }

/-- A concrete parsed portfolio body used by witnesses. -/
def demoPortfolio : WalletPortfolio :=
  { tokens := []
    value := { total := 0 }
    tokensValue := { total := 0 }
    stocksValue := { total := 0 } }

/-- A transport whose endpoint answers every portfolio request with
`demoPortfolio`. -/
def demoPortfolioTransport : PortfolioTransport :=
  fun _ => .ok demoPortfolio

/-- A concrete parsed balances body used by the C6 counterexample. -/
def demoBalances : AggregateBalances :=
  { netWorth := 0, data := some [] }

/-- A transport whose endpoint accepts every balances request and answers
with `demoBalances`. -/
def acceptingBalancesTransport : BalancesTransport :=
  fun _ => .ok demoBalances

/-- C3: `getMultiplePortfolios` issues one `getPortfolio` per address; when it
succeeds, the result has one entry per input address and its i-th entry is the
portfolio the transport returned for the i-th address; when any per-address
fetch fails, the whole operation fails with the error of a failing fetch —
no entry is silently dropped. -/
theorem spec_C3 (c : SolflareApiClient) (t : PortfolioTransport) (addresses : List String) :
    (∀ ps, c.getMultiplePortfolios t addresses = .ok ps →
      ps.length = addresses.length ∧
      ∀ (i : Nat) (a : String) (p : WalletPortfolio),
        addresses[i]? = some a → ps[i]? = some p → c.getPortfolio t a = .ok p) ∧
    ((∃ a ∈ addresses, (c.getPortfolio t a).isOk = false) →
      ∃ e, c.getMultiplePortfolios t addresses = .error e ∧
        ∃ a ∈ addresses, c.getPortfolio t a = .error e) := by
  constructor
  · intro ps h
    have h2 : promiseAll (addresses.map (fun addr => c.getPortfolio t addr)) = .ok ps := h
    obtain ⟨hlen, hidx⟩ := promiseAll_ok h2
    refine ⟨by simpa using hlen, ?_⟩
    intro i a p ha hp
    apply hidx i (c.getPortfolio t a) p ?_ hp
    simp [List.getElem?_map, ha]
  · intro ⟨a, hmem, hfail⟩
    have hx : c.getPortfolio t a ∈ addresses.map (fun addr => c.getPortfolio t addr) :=
      List.mem_map_of_mem _ hmem
    obtain ⟨e, he, hemem⟩ := promiseAll_error ⟨c.getPortfolio t a, hx, hfail⟩
    obtain ⟨a2, ha2mem, ha2⟩ := List.mem_map.mp hemem
    exact ⟨e, he, a2, ha2mem, ha2⟩

/-- Witness for C3 at a two-address input and an all-accepting transport. -/
theorem spec_C3_witness :
    demoClient.getMultiplePortfolios demoPortfolioTransport
        ["96Y3j66AX16noUAAVriW8bmwTGzV1PVqBKCEArPd5fuU",
         "7eXxD3vQww9cgBgD3gb7iqTriAzAmCBXFBMpdDi71P3i"] =
      .ok [demoPortfolio, demoPortfolio] ∧
    demoClient.getPortfolio demoPortfolioTransport
        "96Y3j66AX16noUAAVriW8bmwTGzV1PVqBKCEArPd5fuU" = .ok demoPortfolio := by
  have h := (spec_C3 demoClient demoPortfolioTransport
      ["96Y3j66AX16noUAAVriW8bmwTGzV1PVqBKCEArPd5fuU",
       "7eXxD3vQww9cgBgD3gb7iqTriAzAmCBXFBMpdDi71P3i"]).1
    [demoPortfolio, demoPortfolio] rfl
  exact ⟨rfl, h.2 0 "96Y3j66AX16noUAAVriW8bmwTGzV1PVqBKCEArPd5fuU" demoPortfolio rfl rfl⟩

/-- C4: the `pubkeys` list `getBalances` transmits in the POST body has the
same length and order as the input addresses, its i-th element is exactly the
single character "1" prepended to the i-th input address, and the call hands
the transport exactly that request. -/
theorem spec_C4 (c : SolflareApiClient) (addresses : List String) :
    (c.balancesRequest addresses).body.pubkeys.length = addresses.length ∧
    (∀ (i : Nat) (a : String), addresses[i]? = some a →
      (c.balancesRequest addresses).body.pubkeys[i]? = some ("1" ++ a)) ∧
    ∀ t : BalancesTransport, c.getBalances t addresses = t (c.balancesRequest addresses) := by
  refine ⟨by simp [SolflareApiClient.balancesRequest], ?_, fun t => rfl⟩
  intro i a ha
  simp [SolflareApiClient.balancesRequest, List.getElem?_map, ha]

/-- Witness for C4 at a one-address input. -/
theorem spec_C4_witness :
    (demoClient.balancesRequest
        ["96Y3j66AX16noUAAVriW8bmwTGzV1PVqBKCEArPd5fuU"]).body.pubkeys[0]? =
      some ("1" ++ "96Y3j66AX16noUAAVriW8bmwTGzV1PVqBKCEArPd5fuU") :=
  (spec_C4 demoClient ["96Y3j66AX16noUAAVriW8bmwTGzV1PVqBKCEArPd5fuU"]).2.1 0
    "96Y3j66AX16noUAAVriW8bmwTGzV1PVqBKCEArPd5fuU" rfl

/-- C6 counterexample: `getBalances` performs no local validation of an empty
address sequence — under a transport whose endpoint accepts the request with
an empty `pubkeys` list, the call returns a successfully parsed
`AggregateBalances` for empty input, refuting the claim that the call never
does so. -/
theorem spec_C6_counterexample :
    demoClient.getBalances acceptingBalancesTransport [] = .ok demoBalances ∧
    (demoClient.getBalances acceptingBalancesTransport []).isOk = true :=
  ⟨rfl, rfl⟩

/-- C6 (amended): on an empty addresses sequence, `getBalances` transmits the
POST with an empty `pubkeys` list and returns exactly the transport outcome
for that request; there is no rejection before transmission, so the call
fails for empty input only if the remote endpoint rejects it. -/
theorem spec_C6 (c : SolflareApiClient) (t : BalancesTransport) :
    c.getBalances t [] = t (c.balancesRequest []) ∧
    (c.balancesRequest []).body.pubkeys = [] :=
  ⟨rfl, rfl⟩

/-- C7 counterexample: a caller-supplied network argument is not transmitted.
The call written `api.getPortfolio(address, network)` with network "devnet"
coincides with `getPortfolio(address)`, whose issued request carries the
query parameter network = "mainnet" ≠ "devnet", refuting the claim that the
transmitted network query parameter equals the network argument supplied by
the caller. -/
theorem spec_C7_counterexample :
    demoClient.getPortfolioCalledWithNetwork demoPortfolioTransport
        "96Y3j66AX16noUAAVriW8bmwTGzV1PVqBKCEArPd5fuU" "devnet" =
      demoClient.getPortfolio demoPortfolioTransport
        "96Y3j66AX16noUAAVriW8bmwTGzV1PVqBKCEArPd5fuU" ∧
    (demoClient.portfolioRequest
        "96Y3j66AX16noUAAVriW8bmwTGzV1PVqBKCEArPd5fuU").params =
      [("network", "mainnet")] ∧
    ("mainnet" : String) ≠ "devnet" :=
  ⟨rfl, rfl, by decide⟩

/-- C7 (amended): `getPortfolio(address)` issues a GET whose URL targets
`{baseUrl}/v3/portfolio/tokens/{address}` and always transmits the query
parameter network = "mainnet"; the method declares no network parameter, so
any network argument a caller supplies is discarded and the transmitted
parameter is "mainnet" regardless. -/
theorem spec_C7 (c : SolflareApiClient) (t : PortfolioTransport) (address : String) :
    (c.portfolioRequest address).method = "GET" ∧
    (c.portfolioRequest address).url = c.baseUrl ++ "/v3/portfolio/tokens/" ++ address ∧
    (c.portfolioRequest address).params = [("network", "mainnet")] ∧
    c.getPortfolio t address = t (c.portfolioRequest address) ∧
    ∀ network : String,
      c.getPortfolioCalledWithNetwork t address network = c.getPortfolio t address :=
  ⟨rfl, rfl, rfl, rfl, fun _ => rfl⟩
